/-
  Verification of the OSHA workplace-injuries dashboard (alfredbolzoni/osha_injuries).

  Shallow embedding of the Python/pandas code in `src/app.py`,
  `src/app_streamlit.py` and `src/scripts/clean_osha_sectors_states.py`.

  Modelling conventions:
  * A Python float holding a data value is an `Option ℚ` (`none` = NaN /
    missing); the dashboard data are decimal numbers, modelled exactly by
    rationals.
  * The pandas vectorised arithmetic of the grouped KPI columns, where a
    division can produce IEEE infinities and NaN, is modelled by the
    four-point domain `PVal` (finite rational, +inf, -inf, NaN).
  * A pandas DataFrame is a `List` of row structures; `pd.merge(how="left")`
    is an explicit flat-map; `drop_duplicates` keeps the first occurrence.
  * The Supabase REST endpoint is an arbitrary function from a requested
    `Range` (start, end) to a response (HTTP status plus decoded row chunk),
    so theorems quantify over every behaviour of the remote API.
-/

import Mathlib

namespace Osha

/-! ## Python `round` and `safe_div` (src/app.py lines 152-155) -/

/-- Python `round` to an integer: round half to even (bankers rounding). -/
def roundHalfEven (x : ℚ) : ℤ :=
  let f : ℤ := Rat.floor x
  let r : ℚ := x - f
  if r < 1/2 then f
  else if 1/2 < r then f + 1
  else if f % 2 = 0 then f else f + 1

/-- Python `round(x, n)`: round to `n` decimal digits, half to even. -/
def pyRound (x : ℚ) (n : ℕ) : ℚ :=
  (roundHalfEven (x * 10 ^ n) : ℚ) / 10 ^ n

/-- The function `safe_div(num, den, factor, ndigits)` of src/app.py:
    `if pd.isna(num) or pd.isna(den) or den == 0: return 0.0`
    `return round((num / den) * factor, ndigits)`.
    A `none` argument models a NaN. -/
def safe_div (num den : Option ℚ) (factor : ℚ) (ndigits : ℕ) : ℚ :=
  match num, den with
  | some n, some d => if d = 0 then 0 else pyRound ((n / d) * factor) ndigits
  | _, _ => 0

/-! ## Pandas float domain for the vectorised KPI columns -/

/-- Result domain of pandas float arithmetic: a finite value, +inf, -inf
    or NaN. -/
inductive PVal
  | fin (q : ℚ)
  | pinf
  | ninf
  | nan
deriving DecidableEq

/-- IEEE/pandas division of two finite floats: `a / 0` is `+inf` for positive
    `a`, `-inf` for negative `a`, and NaN for `0 / 0`. -/
def pdiv (a b : ℚ) : PVal :=
  if b ≠ 0 then .fin (a / b)
  else if 0 < a then .pinf
  else if a < 0 then .ninf
  else .nan

/-- `Series.fillna(0)` applied to one value: only NaN becomes 0; the
    infinities pass through. -/
def PVal.fillna0 : PVal → PVal
  | .nan => .fin 0
  | v => v

/-- Multiplication of a pandas float by a finite constant. -/
def PVal.mulc : PVal → ℚ → PVal
  | .fin q, c => .fin (q * c)
  | .nan, _ => .nan
  | .pinf, c => if 0 < c then .pinf else if c < 0 then .ninf else .nan
  | .ninf, c => if 0 < c then .ninf else if c < 0 then .pinf else .nan

/-! ## Incidents rows and the per-year grouped KPIs (src/app.py lines 173-189,
    src/app_streamlit.py lines 34-44) -/

/-- A row of the `incidents` DataFrame after `load_incidents`: the year is a
    nullable integer, the codes are nullable strings, the measures are
    nullable numbers. -/
structure IncRow where
  year : Option ℤ
  state_code : Option String
  naics_code : Option String
  injuries : Option ℚ
  fatalities : Option ℚ
  hoursworked : Option ℚ
  employees : Option ℚ
  daysawayfromwork : Option ℚ
  jobtransferrestriction : Option ℚ
deriving DecidableEq

/-- `df.groupby("year", dropna=True)[col].sum()` for the group of year `y`:
    rows whose year is NaN belong to no group, NaN measure values are
    skipped (pandas `skipna`, `min_count=0`: an all-NaN group sums to 0). -/
def sumBy (rows : List IncRow) (f : IncRow → Option ℚ) (y : ℤ) : ℚ :=
  ((rows.filter (fun r => decide (r.year = some y))).map (fun r => (f r).getD 0)).sum

/-- The years that index the groups of `groupby("year", dropna=True)`. -/
def grpYears (rows : List IncRow) : List ℤ :=
  (rows.filterMap (fun r => r.year)).dedup

/-- One grouped KPI column of src/app.py:
    `(num_col / den_col).fillna(0) * c`. -/
def kpiRate (num den c : ℚ) : PVal :=
  ((pdiv num den).fillna0).mulc c

/-- src/app.py line 187: `grp["TRIR"] = (grp["injuries"] / grp["hoursworked"]).fillna(0) * 200000`. -/
def grpTRIR (rows : List IncRow) (y : ℤ) : PVal :=
  kpiRate (sumBy rows (fun r => r.injuries) y) (sumBy rows (fun r => r.hoursworked) y) 200000

/-- src/app.py line 188: `grp["SeverityRate"] = (grp["daysawayfromwork"] / grp["hoursworked"]).fillna(0) * 200000`. -/
def grpSeverityRate (rows : List IncRow) (y : ℤ) : PVal :=
  kpiRate (sumBy rows (fun r => r.daysawayfromwork) y) (sumBy rows (fun r => r.hoursworked) y) 200000

/-- src/app.py line 189: `grp["FatalityRate"] = (grp["fatalities"] / grp["employees"]).fillna(0) * 100000`. -/
def grpFatalityRate (rows : List IncRow) (y : ℤ) : PVal :=
  kpiRate (sumBy rows (fun r => r.fatalities) y) (sumBy rows (fun r => r.employees) y) 100000

/-- src/app_streamlit.py line 42:
    `df_kpi["TRIR"] = (df_kpi["Injuries"] / df_kpi["HoursWorked"]) * 200000`
    (no `fillna` at all in this variant). -/
def stKpiTRIR (rows : List IncRow) (y : ℤ) : PVal :=
  (pdiv (sumBy rows (fun r => r.injuries) y) (sumBy rows (fun r => r.hoursworked) y)).mulc 200000

/-! ## Supabase REST pagination (src/app.py lines 31-68) -/

/-- A decoded HTTP response to one ranged request: status code and the rows of
    the JSON body. -/
structure Resp (α : Type) where
  status : ℕ
  rows : List α

/-- `r.status_code in (200, 206)`. -/
def goodStatus (s : ℕ) : Bool :=
  s == 200 || s == 206

/-- The pagination loop of `sb_select_all`, one constructor of the recursion
    per remaining iteration of `for _ in range(max_pages)`.  `api start end_`
    is the response to the request with header `Range: start-end_`.  Returns
    the accumulated `frames` together with the statuses of the issued
    requests, in request order. -/
def sbGo (api : ℕ → ℕ → Resp α) (page_size : ℕ) :
    ℕ → ℕ → List (List α) → List ℕ → List (List α) × List ℕ
  | 0, _, frames, stats => (frames, stats)
  | fuel + 1, start, frames, stats =>
    let r := api start (start + page_size - 1)
    if goodStatus r.status then
      if r.rows.isEmpty then (frames, stats ++ [r.status])
      else if r.rows.length < page_size then (frames ++ [r.rows], stats ++ [r.status])
      else sbGo api page_size fuel (start + page_size) (frames ++ [r.rows]) (stats ++ [r.status])
    else (frames, stats ++ [r.status])

/-- `sb_select_all`: run the loop from `start = 0` and concatenate the
    collected frames (`pd.concat(frames, ignore_index=True)`; an empty frame
    list yields the empty DataFrame). -/
def sb_select_all (api : ℕ → ℕ → Resp α) (page_size max_pages : ℕ) : List α :=
  (sbGo api page_size max_pages 0 [] []).1.flatten

/-- The statuses of the HTTP requests `sb_select_all` issues, in order. -/
def sb_statuses (api : ℕ → ℕ → Resp α) (page_size max_pages : ℕ) : List ℕ :=
  (sbGo api page_size max_pages 0 [] []).2

/-- The stopping conditions named by the specification for one response:
    status outside {200, 206}, empty chunk, or short chunk. -/
def stopCond (r : Resp α) (page_size : ℕ) : Bool :=
  !goodStatus r.status || r.rows.isEmpty || decide (r.rows.length < page_size)

/-- The page chunks as the specification sentence describes them: request
    ranges of width `page_size` starting at `start`, collect each good
    non-empty chunk, stop on a bad status, an empty chunk or a short chunk --
    plus the iteration cap, without which this recursion would not be
    well-defined against an API that always answers a full page. -/
def pagesSpec (api : ℕ → ℕ → Resp α) (page_size : ℕ) : ℕ → ℕ → List (List α)
  | 0, _ => []
  | cap + 1, start =>
    let r := api start (start + page_size - 1)
    if goodStatus r.status then
      if r.rows.isEmpty then []
      else if r.rows.length < page_size then [r.rows]
      else r.rows :: pagesSpec api page_size cap (start + page_size)
    else []

/-- The request statuses, described the same way. -/
def statsSpec (api : ℕ → ℕ → Resp α) (page_size : ℕ) : ℕ → ℕ → List ℕ
  | 0, _ => []
  | cap + 1, start =>
    let r := api start (start + page_size - 1)
    if goodStatus r.status then
      if r.rows.isEmpty then [r.status]
      else if r.rows.length < page_size then [r.status]
      else r.status :: statsSpec api page_size cap (start + page_size)
    else [r.status]

/-- The only inline message of the national-overview tab tied to the fetched
    incidents data (src/app.py lines 170-171): an error when the DataFrame is
    empty.  `sb_select_all` itself emits no message. -/
def overviewMessages (df : List α) : List String :=
  if df.isEmpty then ["No data available in incidents."] else []

/-! ## Reference tables and left joins (src/app.py lines 74-86, 138-147) -/

/-- A row of the `regions` DataFrame. -/
structure RegionRow where
  state_code : Option String
  state_name : Option String
deriving DecidableEq

/-- A row of the `sectors` table as fetched (the sector name may be null).
    The field `sectorMacro` embeds the source column `sector_macro`. -/
structure SectorRaw where
  naics_code : Option String
  sectorMacro : Option String
deriving DecidableEq

/-- A row of the `sectors` DataFrame after `load_sectors`: `fillna("")`
    makes the sector name a (possibly empty) string. -/
structure SectorRow where
  naics_code : Option String
  sectorMacro : String
deriving DecidableEq

/-- `DataFrame.drop_duplicates()` keeps the first occurrence of each row. -/
def dropDupAux [DecidableEq α] : List α → List α → List α
  | [], _ => []
  | a :: l, seen => if a ∈ seen then dropDupAux l seen else a :: dropDupAux l (a :: seen)

/-- `DataFrame.drop_duplicates()`. -/
def dropDuplicates [DecidableEq α] (l : List α) : List α :=
  dropDupAux l []

/-- `Char.isWhitespace`, the character class stripped by Python `str.strip`. -/
def isWS (c : Char) : Bool :=
  c.isWhitespace

/-- Python `str.strip()` / pandas `.str.strip()`: drop leading and trailing
    whitespace. -/
def pyStrip (s : String) : String :=
  String.mk (List.rdropWhile isWS (List.dropWhile isWS s.toList))

/-- `load_sectors` (src/app.py lines 79-86): drop duplicate rows, replace a
    null sector name by `""`, strip it, and keep only rows whose sector name
    is non-empty. -/
def load_sectors (rows : List SectorRaw) : List SectorRow :=
  ((dropDuplicates rows).map
      (fun r => SectorRow.mk r.naics_code (pyStrip (r.sectorMacro.getD "")))).filter
    (fun r => decide (r.sectorMacro ≠ ""))

/-- A row of `incidents_with_state`: the incident columns plus the joined
    `state_name` (null when the state code found no match). -/
structure IncStateRow where
  inc : IncRow
  state_name : Option String
deriving DecidableEq

/-- A row of `incidents_with_state_sector`: additionally the joined sector
    name (source column `sector_macro`; null when the NAICS code found no
    match). -/
structure IncStateSectorRow where
  base : IncStateRow
  sectorMacro : Option String
deriving DecidableEq

/-- The region rows whose `state_code` equals that of the incident (pandas `merge`
    matches nulls with nulls). -/
def stateMatches (regions : List RegionRow) (i : IncRow) : List RegionRow :=
  regions.filter (fun r => decide (r.state_code = i.state_code))

/-- The output rows a left join on `state_code` produces for one incident
    row: one per matching region row, or a single row with a null
    `state_name`. -/
def joinStateRow (regions : List RegionRow) (i : IncRow) : List IncStateRow :=
  let ms := stateMatches regions i
  if ms.isEmpty then [⟨i, none⟩] else ms.map (fun r => ⟨i, r.state_name⟩)

/-- `incidents_with_state` (src/app.py lines 138-141): empty if either input
    is empty, otherwise `df_inc.merge(df_regions, on="state_code",
    how="left")`. -/
def incidents_with_state (inc : List IncRow) (regions : List RegionRow) :
    List IncStateRow :=
  if inc.isEmpty || regions.isEmpty then []
  else inc.flatMap (joinStateRow regions)

/-- The sector rows whose `naics_code` equals that of the incident. -/
def sectorMatches (sectors : List SectorRow) (x : IncStateRow) : List SectorRow :=
  sectors.filter (fun s => decide (s.naics_code = x.inc.naics_code))

/-- The output rows the left join on `naics_code` produces for one row of the
    first join. -/
def joinSectorRow (sectors : List SectorRow) (x : IncStateRow) :
    List IncStateSectorRow :=
  let ms := sectorMatches sectors x
  if ms.isEmpty then [⟨x, none⟩] else ms.map (fun s => ⟨x, some s.sectorMacro⟩)

/-- `incidents_with_state_sector` (src/app.py lines 143-147): empty if the
    first join or the sectors table is empty, otherwise the left join of the
    first join with `df_sectors` on `naics_code`. -/
def incidents_with_state_sector (inc : List IncRow) (regions : List RegionRow)
    (sectors : List SectorRow) : List IncStateSectorRow :=
  let df1 := incidents_with_state inc regions
  if df1.isEmpty || sectors.isEmpty then []
  else df1.flatMap (joinSectorRow sectors)

/-! ## Scenario simulator (src/app.py lines 527-546) -/

/-- `emp_adj = max(employees * (1 + delta_emp / 100), 1.0) if employees else 0.0`. -/
def emp_adj (employees : ℚ) (delta_emp : ℤ) : ℚ :=
  if employees ≠ 0 then max (employees * (1 + (delta_emp : ℚ) / 100)) 1 else 0

/-- `hrs_adj = max(hours * (1 + delta_hours / 100), 1.0) if hours else 0.0`. -/
def hrs_adj (hours : ℚ) (delta_hours : ℤ) : ℚ :=
  if hours ≠ 0 then max (hours * (1 + (delta_hours : ℚ) / 100)) 1 else 0

/-- `inj_adj = max(injuries * (1 + delta_inj / 100), 0.0)`. -/
def inj_adj (injuries : ℚ) (delta_inj : ℤ) : ℚ :=
  max (injuries * (1 + (delta_inj : ℚ) / 100)) 0

/-- `trir_new = safe_div(inj_adj, hrs_adj, 200000)`. -/
def trir_new (injuries hours : ℚ) (delta_inj delta_hours : ℤ) : ℚ :=
  safe_div (some (inj_adj injuries delta_inj)) (some (hrs_adj hours delta_hours)) 200000 2

/-- `fat_new = safe_div(fatalities, emp_adj, 100000)`: the numerator stays the
    historical fatalities. -/
def fat_new (fatalities employees : ℚ) (delta_emp : ℤ) : ℚ :=
  safe_div (some fatalities) (some (emp_adj employees delta_emp)) 100000 2

/-! ## NAICS macro-sector mapping
    (src/scripts/clean_osha_sectors_states.py lines 49-79) -/

/-- The dictionary `naics_map`, in source order. -/
def naics_map : List (String × String) :=
  [("11", "Agriculture, Forestry, Fishing & Hunting"),
   ("21", "Mining, Quarrying, Oil & Gas Extraction"),
   ("22", "Utilities"),
   ("23", "Construction"),
   ("31", "Manufacturing"), ("32", "Manufacturing"), ("33", "Manufacturing"),
   ("42", "Wholesale Trade"),
   ("44", "Retail Trade"), ("45", "Retail Trade"),
   ("48", "Transportation & Warehousing"), ("49", "Transportation & Warehousing"),
   ("51", "Information"),
   ("52", "Finance & Insurance"),
   ("53", "Real Estate & Rental"),
   ("54", "Professional, Scientific & Technical Services"),
   ("55", "Management of Companies"),
   ("56", "Administrative & Support Services"),
   ("61", "Educational Services"),
   ("62", "Health Care & Social Assistance"),
   ("71", "Arts, Entertainment & Recreation"),
   ("72", "Accommodation & Food Services"),
   ("81", "Other Services"),
   ("92", "Public Administration")]

/-- A Python value that can reach `map_naics_to_macro` through
    `df["NAICS"].apply`: an integer, a float (`none` = NaN), a string, or
    `None`. -/
inductive PyVal
  | pint (n : ℤ)
  | pfloat (x : Option ℚ)
  | pstr (s : String)
  | pnone
deriving DecidableEq

/-- The numeric value of a decimal digit. -/
def digitVal (c : Char) : Option ℕ :=
  if c.isDigit then some (c.toNat - 48) else none

/-- Parse a non-empty all-digit character run. -/
def parseDigits (l : List Char) : Option ℕ :=
  if l.isEmpty then none
  else
    l.foldl
      (fun acc c =>
        match acc, digitVal c with
        | some a, some d => some (a * 10 + d)
        | _, _ => none)
      (some 0)

/-- Python `int(s)` on a string: strip whitespace, allow one sign, then
    require a non-empty digit run; anything else raises (here: `none`). -/
def pyIntOfString (s : String) : Option ℤ :=
  let l := List.rdropWhile isWS (List.dropWhile isWS s.toList)
  match l with
  | '-' :: rest => (parseDigits rest).map (fun n => -(n : ℤ))
  | '+' :: rest => (parseDigits rest).map (fun n => (n : ℤ))
  | _ => (parseDigits l).map (fun n => (n : ℤ))

/-- Python `int(q)` on a finite float: truncate toward zero. -/
def ratTrunc (q : ℚ) : ℤ :=
  Int.tdiv q.num (q.den : ℤ)

/-- Python `int(naics)` for every modelled input; `none` marks the raising
    cases (NaN, unparsable string, `None`). -/
def pyToInt : PyVal → Option ℤ
  | .pint n => some n
  | .pfloat (some q) => some (ratTrunc q)
  | .pfloat none => none
  | .pstr s => pyIntOfString s
  | .pnone => none

/-- The function `map_naics_to_macro` of the cleaning script:
    `try: code = str(int(naics))[:2]; return naics_map.get(code, "Other")`
    `except: return "Other"`. -/
def mapNaicsToMacro (v : PyVal) : String :=
  match pyToInt v with
  | none => "Other"
  | some n => ((naics_map.lookup ((toString n).take 2)).getD "Other")

/-! ## Concrete data used by counterexamples and witnesses -/

/-- An API that always answers a full page with status 200. -/
def fullPageApi : ℕ → ℕ → Resp ℕ :=
  fun _ _ => ⟨200, [0]⟩

/-- An API whose first page is full and fine, and whose second request fails
    with status 500. -/
def badSecondPageApi : ℕ → ℕ → Resp ℕ :=
  fun start _ => if start = 0 then ⟨200, [7]⟩ else ⟨500, []⟩

/-! ## Theorems -/

/-- **C1.** For a numerator, a denominator and one of the glossary factors
    (200000 for TRIR and Severity Rate, 100000 for the Fatality Rate),
    `safe_div` returns 0 when the denominator is 0 and otherwise the quotient
    times the factor rounded to 2 decimal digits. -/
theorem C1_safe_div_glossary (num den factor : ℚ)
    (hf : factor = 200000 ∨ factor = 100000) :
    (den = 0 → safe_div (some num) (some den) factor 2 = 0) ∧
    (den ≠ 0 → safe_div (some num) (some den) factor 2 = pyRound (num / den * factor) 2) := by
  constructor
  · intro h
    simp [safe_div, h]
  · intro h
    simp [safe_div, h]

/-- Witness for C1 at `num = 3`, `den = 4`, `factor = 200000`. -/
theorem C1_safe_div_glossary_witness :
    ((200000 : ℚ) = 200000 ∨ (200000 : ℚ) = 100000) ∧
    (((4 : ℚ) = 0 → safe_div (some 3) (some 4) 200000 2 = 0) ∧
      ((4 : ℚ) ≠ 0 → safe_div (some 3) (some 4) 200000 2 = pyRound (3 / 4 * 200000) 2)) :=
  ⟨Or.inl rfl, C1_safe_div_glossary 3 4 200000 (Or.inl rfl)⟩

/-- **C8.** `safe_div` returns 0 whenever the numerator or the denominator is
    missing (NaN, modelled by `none`); being a total function into ℚ it is
    defined and finite on every input and can raise no division error. -/
theorem C8_safe_div_nan_total (num den : Option ℚ) (factor : ℚ) (ndigits : ℕ)
    (h : num = none ∨ den = none) :
    safe_div num den factor ndigits = 0 := by
  rcases h with h | h <;> subst h
  · rfl
  · cases num <;> rfl

/-- Witness for C8 at a NaN numerator. -/
theorem C8_safe_div_nan_total_witness :
    ((none : Option ℚ) = none ∨ (some (5 : ℚ)) = none) ∧
    safe_div none (some (5 : ℚ)) 200000 2 = 0 :=
  ⟨Or.inl rfl, C8_safe_div_nan_total none (some 5) 200000 2 (Or.inl rfl)⟩

/-- **C7.** For slider values inside the widget ranges, the simulated TRIR is
    `safe_div` of the adjusted injuries over the adjusted hours with factor
    200000, and the simulated Fatality Rate keeps the historical fatalities
    as numerator over the adjusted employees with factor 100000, with the
    denominators adjusted exactly as the claim states. -/
theorem C7_scenario_simulator (injuries fatalities employees hours : ℚ)
    (delta_emp delta_hours delta_inj : ℤ)
    (hde : -30 ≤ delta_emp ∧ delta_emp ≤ 30)
    (hdh : -30 ≤ delta_hours ∧ delta_hours ≤ 30)
    (hdi : -50 ≤ delta_inj ∧ delta_inj ≤ 50) :
    trir_new injuries hours delta_inj delta_hours =
      safe_div (some (max (injuries * (1 + (delta_inj : ℚ) / 100)) 0))
        (some (if hours ≠ 0 then max (hours * (1 + (delta_hours : ℚ) / 100)) 1 else 0))
        200000 2 ∧
    fat_new fatalities employees delta_emp =
      safe_div (some fatalities)
        (some (if employees ≠ 0 then max (employees * (1 + (delta_emp : ℚ) / 100)) 1 else 0))
        100000 2 :=
  ⟨rfl, rfl⟩

/-- Witness for C7 at concrete base values and slider settings. -/
theorem C7_scenario_simulator_witness :
    ((-30 ≤ (10 : ℤ) ∧ (10 : ℤ) ≤ 30) ∧ (-30 ≤ (-10 : ℤ) ∧ (-10 : ℤ) ≤ 30) ∧
      (-50 ≤ (20 : ℤ) ∧ (20 : ℤ) ≤ 50)) ∧
    (trir_new 5 2000 20 (-10) =
      safe_div (some (max ((5 : ℚ) * (1 + (20 : ℤ) / 100)) 0))
        (some (if (2000 : ℚ) ≠ 0 then max ((2000 : ℚ) * (1 + ((-10 : ℤ) : ℚ) / 100)) 1 else 0))
        200000 2 ∧
     fat_new 1 100 10 =
      safe_div (some (1 : ℚ))
        (some (if (100 : ℚ) ≠ 0 then max ((100 : ℚ) * (1 + ((10 : ℤ) : ℚ) / 100)) 1 else 0))
        100000 2) :=
  ⟨⟨⟨by decide, by decide⟩, ⟨by decide, by decide⟩, ⟨by decide, by decide⟩⟩,
    C7_scenario_simulator 5 1 100 2000 10 (-10) 20 ⟨by decide, by decide⟩
      ⟨by decide, by decide⟩ ⟨by decide, by decide⟩⟩

/-- The loop of `sb_select_all` equals the specification recursions, modulo
    the frame and status accumulators. -/
lemma sbGo_eq (api : ℕ → ℕ → Resp α) (ps : ℕ) :
    ∀ fuel start frames stats,
      sbGo api ps fuel start frames stats =
        (frames ++ pagesSpec api ps fuel start, stats ++ statsSpec api ps fuel start) := by
  intro fuel
  induction fuel with
  | zero =>
    intro start frames stats
    simp [sbGo, pagesSpec, statsSpec]
  | succ n ih =>
    intro start frames stats
    simp only [sbGo, pagesSpec, statsSpec]
    split
    · split
      · simp
      · split
        · simp
        · rw [ih]
          simp
    · simp

/-- The specification status list never exceeds the iteration budget. -/
lemma statsSpec_length (api : ℕ → ℕ → Resp α) (ps : ℕ) :
    ∀ fuel start, (statsSpec api ps fuel start).length ≤ fuel := by
  intro fuel
  induction fuel with
  | zero =>
    intro start
    simp [statsSpec]
  | succ n ih =>
    intro start
    simp only [statsSpec]
    split
    · split
      · simp
      · split
        · simp
        · simpa using ih (start + ps)
    · simp

/-- All statuses before the last one in the specification status list are
    good: a bad status ends the loop at once. -/
lemma statsSpec_dropLast_good (api : ℕ → ℕ → Resp α) (ps : ℕ) :
    ∀ fuel start s, s ∈ (statsSpec api ps fuel start).dropLast → goodStatus s = true := by
  intro fuel
  induction fuel with
  | zero =>
    intro start s hs
    simp [statsSpec] at hs
  | succ n ih =>
    intro start s hs
    simp only [statsSpec] at hs
    by_cases hg : goodStatus (api start (start + ps - 1)).status
    · rw [if_pos hg] at hs
      by_cases he : (api start (start + ps - 1)).rows.isEmpty
      · rw [if_pos he] at hs
        simp at hs
      · rw [if_neg he] at hs
        by_cases hl : (api start (start + ps - 1)).rows.length < ps
        · rw [if_pos hl] at hs
          simp at hs
        · rw [if_neg hl] at hs
          cases hrest : statsSpec api ps n (start + ps) with
          | nil =>
            rw [hrest] at hs
            simp at hs
          | cons b t =>
            rw [hrest, List.dropLast_cons₂] at hs
            rcases List.mem_cons.mp hs with h | h
            · rwa [h]
            · exact ih (start + ps) s (by rw [hrest]; exact h)
    · rw [if_neg hg] at hs
      simp at hs

/-- **C4.** Against every behaviour of the remote API and for every
    `page_size` and `max_pages` (the defaults being 20000 and 2000),
    `sb_select_all` terminates after issuing at most `max_pages` requests:
    the status trace of the issued requests has length at most `max_pages`. -/
theorem C4_sb_select_all_request_bound {α : Type} (api : ℕ → ℕ → Resp α)
    (page_size max_pages : ℕ) :
    (sb_statuses api page_size max_pages).length ≤ max_pages := by
  rw [sb_statuses, sbGo_eq]
  simpa using statsSpec_length api page_size max_pages 0

/-- Counterexample to **C3** as stated: with `page_size = 1`, `max_pages = 2`
    and an API that always answers a full page with status 200,
    `sb_select_all` stops after exactly 2 requests and returns two chunks,
    although no issued response satisfies any of the three stopping
    conditions the claim lists -- the loop stopped because of the `max_pages`
    cap, which the claim omits. -/
theorem C3_counterexample :
    sb_select_all fullPageApi 1 2 = [0, 0] ∧
    (sb_statuses fullPageApi 1 2).length = 2 ∧
    stopCond (fullPageApi 0 0) 1 = false ∧
    stopCond (fullPageApi 1 1) 1 = false :=
  ⟨rfl, rfl, rfl, rfl⟩

/-- **C3 (amended).** `sb_select_all` returns the concatenation, in request
    order, of the page chunks described by the claim -- ranges of width
    `page_size` from `start = 0`, stopping on a status outside {200, 206}, an
    empty chunk or a short chunk, **or after `max_pages` requests**; with no
    collected chunk the result is the empty DataFrame. -/
theorem C3_amended_pagination {α : Type} (api : ℕ → ℕ → Resp α)
    (page_size max_pages : ℕ) :
    sb_select_all api page_size max_pages =
      (pagesSpec api page_size max_pages 0).flatten := by
  rw [sb_select_all, sbGo_eq]
  simp

/-- Counterexample to **C6** as stated: against `badSecondPageApi` with
    `page_size = 1`, the second request returns the non-2xx status 500, yet
    the fetched DataFrame is non-empty, so the overview renders no inline
    message at all -- the failed response is silently swallowed by the
    `break`. -/
theorem C6_counterexample :
    sb_statuses badSecondPageApi 1 5 = [200, 500] ∧
    goodStatus 500 = false ∧
    sb_select_all badSecondPageApi 1 5 = [7] ∧
    overviewMessages (sb_select_all badSecondPageApi 1 5) = [] :=
  ⟨rfl, rfl, rfl, rfl⟩

/-- **C6 (amended).** A non-2xx (that is, non-200/206) response is not
    surfaced: it silently ends the pagination, so every status before the
    last issued one is good, and the only inline message of the overview is
    the empty-data error, which does not appear whenever the fetched frame is
    non-empty. -/
theorem C6_amended_silent_failure {α : Type} (api : ℕ → ℕ → Resp α)
    (page_size max_pages : ℕ) (s : ℕ)
    (hs : s ∈ (sb_statuses api page_size max_pages).dropLast) :
    goodStatus s = true ∧
    (sb_select_all api page_size max_pages ≠ [] →
      overviewMessages (sb_select_all api page_size max_pages) = []) := by
  constructor
  · rw [sb_statuses, sbGo_eq] at hs
    simp only [List.nil_append] at hs
    exact statsSpec_dropLast_good api page_size max_pages 0 s hs
  · intro h
    simp [overviewMessages, h]

/-- Witness for the amended C6 at `badSecondPageApi`. -/
theorem C6_amended_silent_failure_witness :
    (200 ∈ (sb_statuses badSecondPageApi 1 5).dropLast) ∧
    (goodStatus 200 = true ∧
      (sb_select_all badSecondPageApi 1 5 ≠ [] →
        overviewMessages (sb_select_all badSecondPageApi 1 5) = [])) :=
  ⟨by decide, C6_amended_silent_failure badSecondPageApi 1 5 200 (by decide)⟩

/-- Case analysis of one grouped KPI column `(num / den).fillna(0) * c` for a
    positive constant `c`. -/
lemma kpiRate_cases (num den c : ℚ) (hc : 0 < c) :
    (den ≠ 0 → kpiRate num den c = PVal.fin (num / den * c)) ∧
    (den = 0 → num = 0 → kpiRate num den c = PVal.fin 0) ∧
    (den = 0 → 0 < num → kpiRate num den c = PVal.pinf) := by
  refine ⟨?_, ?_, ?_⟩
  · intro h
    simp [kpiRate, pdiv, h, PVal.fillna0, PVal.mulc]
  · intro h h0
    simp [kpiRate, pdiv, h, h0, PVal.fillna0, PVal.mulc]
  · intro h h0
    simp [kpiRate, pdiv, h, h0, not_lt.mpr h0.le, PVal.fillna0, PVal.mulc, hc]

/-- A single-row incidents table whose year-2020 group has 5 injuries and 0
    hours worked. -/
def c2Rows : List IncRow :=
  [⟨some 2020, some "CA", some "11", some 5, some 0, some 0, some 0, some 0, some 0⟩]

/-- Counterexample to **C2** as stated: in the year-2020 group of `c2Rows`
    the summed denominator (hours worked) is 0, but the TRIR column is `+inf`
    rather than 0 -- `fillna(0)` only repairs the NaN of `0 / 0`, not the
    infinity of `5 / 0`. -/
theorem C2_counterexample :
    2020 ∈ grpYears c2Rows ∧
    sumBy c2Rows (fun r => r.hoursworked) 2020 = 0 ∧
    grpTRIR c2Rows 2020 = PVal.pinf ∧
    grpTRIR c2Rows 2020 ≠ PVal.fin 0 := by
  have hden : sumBy c2Rows (fun r => r.hoursworked) 2020 = 0 := by
    simp [sumBy, c2Rows, List.filter]
  have hnum : sumBy c2Rows (fun r => r.injuries) 2020 = 5 := by
    simp [sumBy, c2Rows, List.filter]
  have htr : grpTRIR c2Rows 2020 = PVal.pinf := by
    rw [grpTRIR, hden, hnum]
    norm_num [kpiRate, pdiv, PVal.fillna0, PVal.mulc]
  refine ⟨by decide, hden, htr, ?_⟩
  rw [htr]
  intro h
  exact PVal.noConfusion h

/-- **C2 (amended).** For every year group of the national overview in
    src/app.py: each of the TRIR, SeverityRate and FatalityRate columns
    equals the summed numerator of the group over its summed denominator times its
    constant whenever the summed denominator is non-zero; when the summed
    denominator is 0 the column is 0 only if the summed numerator is also 0,
    and is `+inf` when the summed numerator is positive.  (In the
    src/app_streamlit.py variant, which applies no `fillna`, even the 0/0
    case yields NaN instead of 0.) -/
theorem C2_amended_grouped_kpis (rows : List IncRow) (y : ℤ)
    (hy : y ∈ grpYears rows) :
    (sumBy rows (fun r => r.hoursworked) y ≠ 0 →
      grpTRIR rows y =
        PVal.fin (sumBy rows (fun r => r.injuries) y /
          sumBy rows (fun r => r.hoursworked) y * 200000)) ∧
    (sumBy rows (fun r => r.hoursworked) y = 0 →
      sumBy rows (fun r => r.injuries) y = 0 → grpTRIR rows y = PVal.fin 0) ∧
    (sumBy rows (fun r => r.hoursworked) y = 0 →
      0 < sumBy rows (fun r => r.injuries) y → grpTRIR rows y = PVal.pinf) ∧
    (sumBy rows (fun r => r.hoursworked) y ≠ 0 →
      grpSeverityRate rows y =
        PVal.fin (sumBy rows (fun r => r.daysawayfromwork) y /
          sumBy rows (fun r => r.hoursworked) y * 200000)) ∧
    (sumBy rows (fun r => r.hoursworked) y = 0 →
      sumBy rows (fun r => r.daysawayfromwork) y = 0 →
      grpSeverityRate rows y = PVal.fin 0) ∧
    (sumBy rows (fun r => r.hoursworked) y = 0 →
      0 < sumBy rows (fun r => r.daysawayfromwork) y →
      grpSeverityRate rows y = PVal.pinf) ∧
    (sumBy rows (fun r => r.employees) y ≠ 0 →
      grpFatalityRate rows y =
        PVal.fin (sumBy rows (fun r => r.fatalities) y /
          sumBy rows (fun r => r.employees) y * 100000)) ∧
    (sumBy rows (fun r => r.employees) y = 0 →
      sumBy rows (fun r => r.fatalities) y = 0 →
      grpFatalityRate rows y = PVal.fin 0) ∧
    (sumBy rows (fun r => r.employees) y = 0 →
      0 < sumBy rows (fun r => r.fatalities) y →
      grpFatalityRate rows y = PVal.pinf) ∧
    (sumBy rows (fun r => r.hoursworked) y = 0 →
      sumBy rows (fun r => r.injuries) y = 0 → stKpiTRIR rows y = PVal.nan) := by
  obtain ⟨t1, t2, t3⟩ :=
    kpiRate_cases (sumBy rows (fun r => r.injuries) y)
      (sumBy rows (fun r => r.hoursworked) y) 200000 (by norm_num)
  obtain ⟨s1, s2, s3⟩ :=
    kpiRate_cases (sumBy rows (fun r => r.daysawayfromwork) y)
      (sumBy rows (fun r => r.hoursworked) y) 200000 (by norm_num)
  obtain ⟨f1, f2, f3⟩ :=
    kpiRate_cases (sumBy rows (fun r => r.fatalities) y)
      (sumBy rows (fun r => r.employees) y) 100000 (by norm_num)
  refine ⟨t1, t2, t3, s1, s2, s3, f1, f2, f3, ?_⟩
  intro hden hnum
  simp [stKpiTRIR, hden, hnum, pdiv, PVal.mulc]

/-- A single-row incidents table for the C2 witness: the year-2021 group has
    non-zero hours and employees. -/
def c2WitnessRows : List IncRow :=
  [⟨some 2021, some "NY", some "23", some 4, some 1, some 2, some 10, some 6, some 0⟩]

/-- Witness for the amended C2 at the year-2021 group of `c2WitnessRows`. -/
theorem C2_amended_grouped_kpis_witness :
    2021 ∈ grpYears c2WitnessRows ∧
    ((sumBy c2WitnessRows (fun r => r.hoursworked) 2021 ≠ 0 →
      grpTRIR c2WitnessRows 2021 =
        PVal.fin (sumBy c2WitnessRows (fun r => r.injuries) 2021 /
          sumBy c2WitnessRows (fun r => r.hoursworked) 2021 * 200000)) ∧
    (sumBy c2WitnessRows (fun r => r.hoursworked) 2021 = 0 →
      sumBy c2WitnessRows (fun r => r.injuries) 2021 = 0 →
      grpTRIR c2WitnessRows 2021 = PVal.fin 0) ∧
    (sumBy c2WitnessRows (fun r => r.hoursworked) 2021 = 0 →
      0 < sumBy c2WitnessRows (fun r => r.injuries) 2021 →
      grpTRIR c2WitnessRows 2021 = PVal.pinf) ∧
    (sumBy c2WitnessRows (fun r => r.hoursworked) 2021 ≠ 0 →
      grpSeverityRate c2WitnessRows 2021 =
        PVal.fin (sumBy c2WitnessRows (fun r => r.daysawayfromwork) 2021 /
          sumBy c2WitnessRows (fun r => r.hoursworked) 2021 * 200000)) ∧
    (sumBy c2WitnessRows (fun r => r.hoursworked) 2021 = 0 →
      sumBy c2WitnessRows (fun r => r.daysawayfromwork) 2021 = 0 →
      grpSeverityRate c2WitnessRows 2021 = PVal.fin 0) ∧
    (sumBy c2WitnessRows (fun r => r.hoursworked) 2021 = 0 →
      0 < sumBy c2WitnessRows (fun r => r.daysawayfromwork) 2021 →
      grpSeverityRate c2WitnessRows 2021 = PVal.pinf) ∧
    (sumBy c2WitnessRows (fun r => r.employees) 2021 ≠ 0 →
      grpFatalityRate c2WitnessRows 2021 =
        PVal.fin (sumBy c2WitnessRows (fun r => r.fatalities) 2021 /
          sumBy c2WitnessRows (fun r => r.employees) 2021 * 100000)) ∧
    (sumBy c2WitnessRows (fun r => r.employees) 2021 = 0 →
      sumBy c2WitnessRows (fun r => r.fatalities) 2021 = 0 →
      grpFatalityRate c2WitnessRows 2021 = PVal.fin 0) ∧
    (sumBy c2WitnessRows (fun r => r.employees) 2021 = 0 →
      0 < sumBy c2WitnessRows (fun r => r.fatalities) 2021 →
      grpFatalityRate c2WitnessRows 2021 = PVal.pinf) ∧
    (sumBy c2WitnessRows (fun r => r.hoursworked) 2021 = 0 →
      sumBy c2WitnessRows (fun r => r.injuries) 2021 = 0 →
      stKpiTRIR c2WitnessRows 2021 = PVal.nan)) :=
  ⟨by decide, C2_amended_grouped_kpis c2WitnessRows 2021 (by decide)⟩

/-- Each incident row yields at least one join output row carrying it. -/
lemma joinStateRow_exists (regions : List RegionRow) (i : IncRow) :
    ∃ o ∈ joinStateRow regions i, o.inc = i := by
  cases h : stateMatches regions i with
  | nil => exact ⟨⟨i, none⟩, by simp [joinStateRow, h], rfl⟩
  | cons m t =>
    refine ⟨⟨i, m.state_name⟩, ?_, rfl⟩
    simp only [joinStateRow, h, List.isEmpty_cons, if_false, Bool.false_eq_true]
    exact List.mem_map_of_mem _ (List.mem_cons_self m t)

/-- An incident with no matching region joins to a single row with a null
    `state_name`. -/
lemma joinStateRow_unmatched (regions : List RegionRow) (i : IncRow)
    (h : ∀ r ∈ regions, r.state_code ≠ i.state_code) :
    joinStateRow regions i = [⟨i, none⟩] := by
  have hm : stateMatches regions i = [] := by
    rw [stateMatches, List.filter_eq_nil_iff]
    intro r hr
    simp [h r hr]
  simp [joinStateRow, hm]

/-- Each first-join row yields at least one sector-join output row carrying
    it. -/
lemma joinSectorRow_exists (sectors : List SectorRow) (x : IncStateRow) :
    ∃ o ∈ joinSectorRow sectors x, o.base = x := by
  cases h : sectorMatches sectors x with
  | nil => exact ⟨⟨x, none⟩, by simp [joinSectorRow, h], rfl⟩
  | cons m t =>
    refine ⟨⟨x, some m.sectorMacro⟩, ?_, rfl⟩
    simp only [joinSectorRow, h, List.isEmpty_cons, if_false, Bool.false_eq_true]
    exact List.mem_map_of_mem _ (List.mem_cons_self m t)

/-- A first-join row with no matching sector joins to a single row with a
    null sector name. -/
lemma joinSectorRow_unmatched (sectors : List SectorRow) (x : IncStateRow)
    (h : ∀ s ∈ sectors, s.naics_code ≠ x.inc.naics_code) :
    joinSectorRow sectors x = [⟨x, none⟩] := by
  have hm : sectorMatches sectors x = [] := by
    rw [sectorMatches, List.filter_eq_nil_iff]
    intro s hs
    simp [h s hs]
  simp [joinSectorRow, hm]

/-- **C5.** With non-empty incidents, regions and sectors tables: every
    incident row appears in `incidents_with_state` (with a null `state_name`
    exactly available when its state code has no match), and every incident
    row likewise survives `incidents_with_state_sector`, with a null joined
    sector name when its NAICS code has no match -- no incident row is
    dropped by either left join. -/
theorem C5_left_join_preserves_incidents (inc : List IncRow)
    (regions : List RegionRow) (sectors : List SectorRow)
    (hinc : inc ≠ []) (hreg : regions ≠ []) (hsec : sectors ≠ []) :
    (∀ i ∈ inc, ∃ o ∈ incidents_with_state inc regions, o.inc = i) ∧
    (∀ i ∈ inc, (∀ r ∈ regions, r.state_code ≠ i.state_code) →
      IncStateRow.mk i none ∈ incidents_with_state inc regions) ∧
    (∀ i ∈ inc, ∃ o ∈ incidents_with_state_sector inc regions sectors,
      o.base.inc = i) ∧
    (∀ i ∈ inc, (∀ s ∈ sectors, s.naics_code ≠ i.naics_code) →
      ∃ o ∈ incidents_with_state_sector inc regions sectors,
        o.base.inc = i ∧ o.sectorMacro = none) := by
  have hws : incidents_with_state inc regions = inc.flatMap (joinStateRow regions) := by
    simp [incidents_with_state, hinc, hreg]
  have hne : incidents_with_state inc regions ≠ [] := by
    obtain ⟨i, hi⟩ := List.exists_mem_of_ne_nil inc hinc
    obtain ⟨o, ho, -⟩ := joinStateRow_exists regions i
    exact List.ne_nil_of_mem (by rw [hws]; exact List.mem_flatMap.mpr ⟨i, hi, ho⟩)
  have hwss : incidents_with_state_sector inc regions sectors =
      (incidents_with_state inc regions).flatMap (joinSectorRow sectors) := by
    simp [incidents_with_state_sector, hne, hsec]
  refine ⟨?_, ?_, ?_, ?_⟩
  · intro i hi
    obtain ⟨o, ho, hoi⟩ := joinStateRow_exists regions i
    exact ⟨o, by rw [hws]; exact List.mem_flatMap.mpr ⟨i, hi, ho⟩, hoi⟩
  · intro i hi h
    rw [hws]
    refine List.mem_flatMap.mpr ⟨i, hi, ?_⟩
    rw [joinStateRow_unmatched regions i h]
    simp
  · intro i hi
    obtain ⟨o, ho, hoi⟩ := joinStateRow_exists regions i
    obtain ⟨o2, ho2, ho2b⟩ := joinSectorRow_exists sectors o
    refine ⟨o2, ?_, by rw [ho2b, hoi]⟩
    rw [hwss]
    exact List.mem_flatMap.mpr
      ⟨o, by rw [hws]; exact List.mem_flatMap.mpr ⟨i, hi, ho⟩, ho2⟩
  · intro i hi h
    obtain ⟨o, ho, hoi⟩ := joinStateRow_exists regions i
    have hum : joinSectorRow sectors o = [⟨o, none⟩] := by
      refine joinSectorRow_unmatched sectors o ?_
      intro s hs
      rw [hoi]
      exact h s hs
    refine ⟨⟨o, none⟩, ?_, hoi, rfl⟩
    rw [hwss]
    refine List.mem_flatMap.mpr
      ⟨o, by rw [hws]; exact List.mem_flatMap.mpr ⟨i, hi, ho⟩, ?_⟩
    rw [hum]
    simp

/-- The incidents table of the C5 witness. -/
def wInc : List IncRow :=
  [⟨some 2020, some "CA", some "23", some 1, some 0, some 100, some 10, some 0, some 0⟩]

/-- The regions table of the C5 witness. -/
def wRegions : List RegionRow :=
  [⟨some "CA", some "California"⟩]

/-- The sectors table of the C5 witness. -/
def wSectors : List SectorRow :=
  [⟨some "23", "Construction"⟩]

/-- Witness for C5 at one-row tables. -/
theorem C5_left_join_preserves_incidents_witness :
    (wInc ≠ [] ∧ wRegions ≠ [] ∧ wSectors ≠ []) ∧
    ((∀ i ∈ wInc, ∃ o ∈ incidents_with_state wInc wRegions, o.inc = i) ∧
    (∀ i ∈ wInc, (∀ r ∈ wRegions, r.state_code ≠ i.state_code) →
      IncStateRow.mk i none ∈ incidents_with_state wInc wRegions) ∧
    (∀ i ∈ wInc, ∃ o ∈ incidents_with_state_sector wInc wRegions wSectors,
      o.base.inc = i) ∧
    (∀ i ∈ wInc, (∀ s ∈ wSectors, s.naics_code ≠ i.naics_code) →
      ∃ o ∈ incidents_with_state_sector wInc wRegions wSectors,
        o.base.inc = i ∧ o.sectorMacro = none)) :=
  ⟨⟨by decide, by decide, by decide⟩,
    C5_left_join_preserves_incidents wInc wRegions wSectors
      (by decide) (by decide) (by decide)⟩

/-- Stripping leading and trailing elements satisfying `p` is idempotent. -/
lemma strip_idem {α : Type} (p : α → Bool) (l : List α) :
    List.rdropWhile p (List.dropWhile p (List.rdropWhile p (List.dropWhile p l))) =
      List.rdropWhile p (List.dropWhile p l) := by
  have hdz : List.dropWhile p (List.rdropWhile p (List.dropWhile p l)) =
      List.rdropWhile p (List.dropWhile p l) := by
    cases hzc : List.rdropWhile p (List.dropWhile p l) with
    | nil => simp
    | cons a t =>
      have hpre : List.rdropWhile p (List.dropWhile p l) <+: List.dropWhile p l :=
        List.rdropWhile_prefix _ _
      rw [hzc] at hpre
      obtain ⟨rest, hrest⟩ := hpre
      have hy : List.dropWhile p l = a :: (t ++ rest) := by
        rw [← hrest]
        simp
      have hid : List.dropWhile p (a :: (t ++ rest)) = a :: (t ++ rest) := by
        rw [← hy]
        exact List.dropWhile_idempotent p l
      have hna : ¬ p a := by
        have := List.dropWhile_eq_self_iff.mp hid (by simp)
        simpa using this
      rw [List.dropWhile_cons]
      simp [hna]
  rw [hdz, List.rdropWhile_idempotent]

/-- `pyStrip` is idempotent. -/
lemma pyStrip_idem (s : String) : pyStrip (pyStrip s) = pyStrip s := by
  unfold pyStrip
  have ht : (String.mk (List.rdropWhile isWS (List.dropWhile isWS s.toList))).toList
      = List.rdropWhile isWS (List.dropWhile isWS s.toList) := rfl
  rw [ht, strip_idem]

/-- **C9.** Every row returned by `load_sectors` has a sector name that is
    non-null (the `fillna("")` step makes it a genuine string, reflected in
    the result row type), already whitespace-stripped, and non-empty -- so it
    stays non-empty under further stripping.  This holds for every content of
    the sectors table. -/
theorem C9_load_sectors_clean (rows : List SectorRaw) (r : SectorRow)
    (h : r ∈ load_sectors rows) :
    r.sectorMacro ≠ "" ∧ pyStrip r.sectorMacro = r.sectorMacro := by
  obtain ⟨hmem, hne⟩ := List.mem_filter.mp h
  constructor
  · simpa using hne
  · obtain ⟨raw, hraw, hr⟩ := List.mem_map.mp hmem
    subst hr
    exact pyStrip_idem _

/-- The sectors table of the C9 witness: one good row, one null sector name,
    one whitespace-only sector name. -/
def wSectorsRaw : List SectorRaw :=
  [⟨some "23", some " Construction "⟩, ⟨some "99", none⟩, ⟨some "11", some "  "⟩]

/-- Witness for C9: of `wSectorsRaw` only the stripped good row survives. -/
theorem C9_load_sectors_clean_witness :
    (SectorRow.mk (some "23") "Construction" ∈ load_sectors wSectorsRaw) ∧
    ((SectorRow.mk (some "23") "Construction").sectorMacro ≠ "" ∧
      pyStrip (SectorRow.mk (some "23") "Construction").sectorMacro =
        (SectorRow.mk (some "23") "Construction").sectorMacro) :=
  ⟨by decide, C9_load_sectors_clean wSectorsRaw _ (by decide)⟩

/-- A successful dictionary lookup returns one of the values of the dictionary. -/
lemma lookup_mem_values :
    ∀ (l : List (String × String)) (k v : String),
      l.lookup k = some v → v ∈ l.map Prod.snd := by
  intro l
  induction l with
  | nil =>
    intro k v h
    simp [List.lookup] at h
  | cons a t ih =>
    intro k v h
    cases a with
    | mk k1 v1 =>
      simp only [List.lookup] at h
      split at h
      · simp only [Option.some.injEq] at h
        simp [h]
      · exact List.mem_cons_of_mem _ (ih k v h)

/-- Counterexample to **C10** as stated: `naics_map` holds 20 distinct
    macro-sector names (24 keys), not 22. -/
theorem C10_counterexample :
    ((naics_map.map Prod.snd).dedup).length = 20 ∧
    ((naics_map.map Prod.snd).dedup).length ≠ 22 := by
  constructor
  · decide
  · decide

/-- **C10 (amended).** `map_naics_to_macro` is total: for every input value
    (integer, float, NaN, arbitrary string or None) it returns either one of
    the 20 macro-sector names of `naics_map`, found under the key formed from
    the first two characters of the decimal form of the integer value of the input, or the string "Other"; every raising conversion is caught. -/
theorem C10_amended_naics_total (v : PyVal) :
    mapNaicsToMacro v = "Other" ∨
    ((∃ n : ℤ, pyToInt v = some n ∧
        naics_map.lookup ((toString n).take 2) = some (mapNaicsToMacro v)) ∧
      mapNaicsToMacro v ∈ naics_map.map Prod.snd) := by
  cases hv : pyToInt v with
  | none =>
    left
    unfold mapNaicsToMacro
    rw [hv]
  | some n =>
    cases hl : naics_map.lookup ((toString n).take 2) with
    | none =>
      left
      unfold mapNaicsToMacro
      rw [hv]
      show (List.lookup ((toString n).take 2) naics_map).getD "Other" = "Other"
      rw [hl]
      rfl
    | some name =>
      right
      have hres : mapNaicsToMacro v = name := by
        unfold mapNaicsToMacro
        rw [hv]
        show (List.lookup ((toString n).take 2) naics_map).getD "Other" = name
        rw [hl]
        rfl
      exact ⟨⟨n, rfl, by rw [hres, hl]⟩,
        hres ▸ lookup_mem_values naics_map _ name hl⟩

end Osha
